import Mathlib

/-!
Shallow embedding of src/LocationWeather.ts (class LocationWeather).

The module resolves current weather for a batch of locations (city names
or postal codes) through a remote API, with an in-memory cache backed by
a JSON blob on disk.  We embed the class statics (`apiKey`, `_cache`) as
an explicit state record, the durable file as a deserialized cache value
in that record, and the ambient JavaScript environment (date parsing,
the clock, the per-location remote responses and the outcome of the
durable write) as an explicit environment record.  JavaScript object
maps are embedded as association lists keyed by strings, since object
property keys are strings: a numeric key is coerced to its decimal
string form by the runtime.
-/

namespace LocationWeather

/-- A JavaScript value that may appear as an element of the input batch:
a string, a number, or anything else (array, object, boolean, ...) kept
only as a tag.  Strings and numbers are the valid locations
(`type Location = string | number`). -/
inductive JsValue where
  | str (s : String)
  | num (n : Int)
  | other (tag : String)
deriving DecidableEq, Repr

/-- The argument of getWeatherData before validation: an array of
JavaScript values, or any non-array value kept as a tag
(`Array.isArray` distinguishes the two). -/
inductive JsInput where
  | array (elems : List JsValue)
  | notArray (tag : String)
deriving DecidableEq, Repr

/-- The inner `weather: \x7b description \x7d` object of a record. -/
structure WeatherDesc where
  description : String
deriving DecidableEq, Repr

/-- interface Weather: the fields the source extracts and retains. -/
structure Weather where
  timezone : String
  ob_time : String
  city_name : String
  datetime : String
  weather : WeatherDesc
deriving DecidableEq, Repr

/-- The kind of a thrown JavaScript error object. -/
inductive ErrKind where
  | typeError
  | error
  | referenceError
deriving DecidableEq, Repr

/-- A thrown JavaScript error: its constructor kind and its message. -/
structure JsError where
  kind : ErrKind
  message : String
deriving DecidableEq, Repr

/-- interface Cache \x7b [key: string]: Weather \x7d, embedded as an
association list keyed by the string form of the location. -/
abbrev Cache := List (String × Weather)

/-- Property read `cache[k]` on a JavaScript object: the value stored
under key k, if any. -/
def Cache.lookup (c : Cache) (k : String) : Option Weather :=
  (c.find? (fun p => p.1 == k)).map Prod.snd

/-- Object spread `\x7b ...a, ...b \x7d`: every key of a or b, with the
value from b winning on a key collision. -/
def Cache.union (a b : Cache) : Cache :=
  a.filter (fun p => (Cache.lookup b p.1).isNone) ++ b

/-- String coercion of a location, as the runtime performs for object
keys, template literals and `location.toString()`: a string is itself, a
number is its decimal form. -/
def JsValue.toStr : JsValue → String
  | .str s => s
  | .num n => toString n
  | .other tag => tag

/-- typeof location is string or number (the valid element check of
_validateLocations). -/
def isStringOrNumber : JsValue → Bool
  | .str _ => true
  | .num _ => true
  | .other _ => false

/-- The class statics of LocationWeather: the credential `apiKey`
(process.env.API_KEY, possibly undefined), the in-memory `_cache`
(undefined until the first successful write), and the durable blob
data.json viewed as the cache value it serializes (none when the file is
absent). -/
structure LWState where
  apiKey : Option String
  cache : Option Cache
  disk : Option Cache
deriving DecidableEq, Repr

/-- The ambient environment of one call: `parseDate s` is
`new Date(s).getTime()` in milliseconds (none when the string yields an
Invalid Date, whose getTime is NaN); `now` is the current clock in
milliseconds; `responses l` is the outcome of parsing the remote body
for location l into the expected record shape
(`JSON.parse` followed by destructuring `data[0]`, none when that
fails); `write` is the outcome of the fs.writeFile call. -/
structure Env where
  parseDate : String → Option Int
  now : Int
  responses : JsValue → Option Weather
  write : Except String Unit

/-- JavaScript truthiness test `!LocationWeather.apiKey`: true when the
credential is undefined or the empty string. -/
def jsFalsy : Option String → Bool
  | none => true
  | some s => s.isEmpty

/-- _validateLocations (lines 191-203): the four guard clauses, in
source order; on success the input list flows through untransformed.
Pure: it takes neither the state nor the environment. -/
def _validateLocations : JsInput → Except JsError (List JsValue)
  | .notArray _ =>
      .error ⟨.typeError, "data set should be an array containing locations and postal codes"⟩
  | .array locations =>
      if locations.length == 0 then
        .error ⟨.error, "data set should not be empty"⟩
      else if locations.length > 10 then
        .error ⟨.error, "data set should not contain more than 10 entries"⟩
      else if !(locations.all isStringOrNumber) then
        .error ⟨.typeError, "each location should be a city(string) or zipcode(integer)"⟩
      else
        .ok locations

/-- _locationCacheExpired (lines 240-251), translated literally.  The
try block reads `_cache[location].ob_time` (throwing, hence returning
true from the catch, when the cache is unset or has no record), builds
`new Date(ob_time)`, adds one hour via setHours (3600000 ms), and
returns `time.getTime() > now.getTime()`.  An unparsable ob_time gives
an Invalid Date whose getTime is NaN, and `NaN > now` is false, so the
function returns false without throwing. -/
def _locationCacheExpired (env : Env) (st : LWState) (location : JsValue) : Bool :=
  match st.cache with
  | none => true
  | some cache =>
    match cache.lookup location.toStr with
    | none => true
    | some w =>
      match env.parseDate w.ob_time with
      | none => false
      | some t => decide (t + 3600000 > env.now)

/-- _filterCachedLocations (lines 218-220): the locations whose
_locationCacheExpired value equals the flag, in input order. -/
def _filterCachedLocations (env : Env) (st : LWState) (flag : Bool)
    (locations : List JsValue) : List JsValue :=
  locations.filter (fun location => _locationCacheExpired env st location == flag)

/-- lodash pick(object, paths): the entries of the object at the given
keys, absent keys omitted; null-safe, never throws. -/
def pick (c : Cache) (keys : List String) : Cache :=
  keys.filterMap (fun k => (c.lookup k).map (fun w => (k, w)))

/-- _getWeatherByLocationsFromCache (lines 111-113):
`pick(LocationWeather._cache, locations)`.  lodash pick of an undefined
object is the empty object. -/
def _getWeatherByLocationsFromCache (st : LWState) (locations : List JsValue) : Cache :=
  pick (st.cache.getD []) (locations.map JsValue.toStr)

/-- The regex test of _request, line 130: `/\d+/.test(location.toString())`
holds exactly when the string form holds at least one character of the
class \d, that is a decimal digit 0-9. -/
def testDigitsRegex (s : String) : Bool :=
  s.data.any (fun c => decide ('0' ≤ c) && decide (c ≤ '9'))

/-- The query-parameter kind chosen by _request, line 130:
postal_code when the regex matches, city otherwise. -/
def locationKind (location : JsValue) : String :=
  if testDigitsRegex location.toStr then "postal_code" else "city"

/-- The request URL _request builds (lines 130-132):
dataUrl plus `?<kind>=<location>&key=<apiKey>`. -/
def requestUrl (apiKey : String) (location : JsValue) : String :=
  "https://api.weatherbit.io/v2.0/current" ++ "?" ++ locationKind location
    ++ "=" ++ location.toStr ++ "&key=" ++ apiKey

/-- _transformWeatherData (lines 169-177): the transformResponse hook
bound to the location.  When the body parses into the expected shape
(modelled by the environment handing over the record), it returns the
singleton object keyed by the string form of the location, extracting
city_name, timezone, ob_time, weather and datetime; otherwise it throws
`new Error` with the message interpolating the location. -/
def _transformWeatherData (location : JsValue) (body : Option Weather) :
    Except JsError Cache :=
  match body with
  | some w =>
      .ok [(location.toStr,
        { timezone := w.timezone, ob_time := w.ob_time, city_name := w.city_name
          datetime := w.datetime, weather := w.weather })]
  | none => .error ⟨.error, "no weather data for " ++ location.toStr⟩

/-- _request (lines 128-138): one GET whose response body is transformed
by _transformWeatherData bound to the location; the promise value is the
transformed body. -/
def _request (env : Env) (location : JsValue) : Except JsError Cache :=
  _transformWeatherData location (env.responses location)

/-- axios.all over `locations.map(_request)` (line 95): every request is
issued; the joined promise carries all the transformed bodies, or the
failure of a failing one (deterministically the first in list order in
this embedding). -/
def axiosAll (env : Env) : List JsValue → Except JsError (List Cache)
  | [] => .ok []
  | location :: rest =>
    match _request env location with
    | .error e => .error e
    | .ok c =>
      match axiosAll env rest with
      | .error e => .error e
      | .ok cs => .ok (c :: cs)

/-- _normalizeApiData (lines 152-154): `Object.assign(\x7b\x7d, ...weatherData)`,
the left-to-right union of the per-location singleton objects. -/
def _normalizeApiData (weatherData : List Cache) : Cache :=
  weatherData.foldl Cache.union []

/-- _writeToCache (lines 265-272): serialize `\x7b ..._cache, ...data \x7d`
(spreading an unset cache spreads nothing), write it over data.json, and
only after the write resolves assign `_cache = data` and return data.  A
write failure rejects before the assignment, leaving both the in-memory
cache and (in this atomic model) the blob unchanged. -/
def _writeToCache (env : Env) (st : LWState) (data : Cache) :
    Except JsError Cache × LWState :=
  let content := Cache.union (st.cache.getD []) data
  match env.write with
  | .error e => (.error ⟨.error, e⟩, st)
  | .ok _ => (.ok data, { st with cache := some data, disk := some content })

/-- _getWeatherByLocationsFromApi (lines 94-96): axios.all over the
batch, then _normalizeApiData, then _writeToCache. -/
def _getWeatherByLocationsFromApi (env : Env) (st : LWState)
    (locations : List JsValue) : Except JsError Cache × LWState :=
  match axiosAll env locations with
  | .error e => (.error e, st)
  | .ok weatherData => _writeToCache env st (_normalizeApiData weatherData)

/-- The try block of getWeatherData (lines 65-75): the credential check
(throwing ReferenceError), validation, the two filter calls against the
pre-call cache, the conditional API round (skipped when fromApi is
empty), and the final spread of the API data with the cache read --- the
cache read happens after the await, so it sees the post-write state. -/
def getWeatherDataTry (env : Env) (st : LWState) (locations : JsInput) :
    Except JsError Cache × LWState :=
  if jsFalsy st.apiKey then
    (.error ⟨.referenceError, "please supply a valid api key"⟩, st)
  else
    match _validateLocations locations with
    | .error e => (.error e, st)
    | .ok locs =>
      let fromApi := _filterCachedLocations env st true locs
      let fromCache := _filterCachedLocations env st false locs
      match (if fromApi.length != 0
             then _getWeatherByLocationsFromApi env st fromApi
             else (.ok [], st)) with
      | (.error e, st') => (.error e, st')
      | (.ok apiData, st') =>
          (.ok (Cache.union apiData (_getWeatherByLocationsFromCache st' fromCache)), st')

/-- getWeatherData (lines 64-79): the try block with its catch clause,
which rethrows any failure as a plain Error carrying the original
message. -/
def getWeatherData (env : Env) (st : LWState) (locations : JsInput) :
    Except JsError Cache × LWState :=
  match getWeatherDataTry env st locations with
  | (.error e, st') => (.error ⟨.error, e.message⟩, st')
  | ok => ok

/-- The batch getWeatherData hands to the remote fetcher: empty when the
credential or validation guard fails (nothing is fetched then), and
otherwise the fromApi filter of line 71; the API round of line 73 is
issued exactly when this list is nonempty. -/
def remoteBatch (env : Env) (st : LWState) (locations : JsInput) : List JsValue :=
  if jsFalsy st.apiKey then []
  else
    match _validateLocations locations with
    | .error _ => []
    | .ok locs => _filterCachedLocations env st true locs

/-! ## Concrete fixtures used by the closed theorems below -/

/-- A record whose ob_time parses to 1000000 ms: 50 minutes before the
clock of envC1, hence inside the one-hour window. -/
def wFresh : Weather :=
  { timezone := "tz", ob_time := "FRESH", city_name := "Fcity", datetime := "dt",
    weather := ⟨"clear"⟩ }

/-- A record whose ob_time parses to 0 ms: more than one hour before the
clock of envC1, hence outside the window. -/
def wStale : Weather :=
  { timezone := "tz", ob_time := "STALE", city_name := "Scity", datetime := "dt",
    weather := ⟨"rain"⟩ }

/-- A record whose ob_time does not parse (Invalid Date). -/
def wGarbled : Weather :=
  { timezone := "tz", ob_time := "GARBAGE", city_name := "Gcity", datetime := "dt",
    weather := ⟨"fog"⟩ }

/-- An environment whose clock stands at 4000000 ms and whose date parser
reads FRESH as 1000000 ms, STALE as 0 ms and anything else as invalid. -/
def envC1 : Env :=
  { parseDate := fun s => if s == "FRESH" then some 1000000
      else if s == "STALE" then some 0 else none,
    now := 4000000,
    responses := fun _ => none,
    write := .ok () }

/-- A state holding a fresh, a stale and a garbled record under the keys
F, S and G. -/
def stC1 : LWState :=
  { apiKey := some "k",
    cache := some [("F", wFresh), ("S", wStale), ("G", wGarbled)],
    disk := none }

/-- The record the stub remote source returns for New York; its ob_time
parses to 0 ms under envFirst. -/
def wNY : Weather :=
  { timezone := "America/New_York", ob_time := "OB0", city_name := "New York",
    datetime := "dt", weather := ⟨"Clear"⟩ }

/-- The environment of the first call of the idempotence scenario: clock
at 0 ms, a working remote stub for New York, a working durable write. -/
def envFirst : Env :=
  { parseDate := fun s => if s == "OB0" then some 0 else none,
    now := 0,
    responses := fun l => if l == JsValue.str "New York" then some wNY else none,
    write := .ok () }

/-- The same environment one minute later: well inside the one-hour
freshness window of the record stored by the first call. -/
def envSecond : Env := { envFirst with now := 60000 }

/-- The initial state: a credential is set, the cache was never
populated, no durable blob exists. -/
def stEmpty : LWState := { apiKey := some "k", cache := none, disk := none }

/-- The state the first getWeatherData call of the idempotence scenario
leaves behind. -/
def stAfterFirst : LWState :=
  (getWeatherData envFirst stEmpty (JsInput.array [JsValue.str "New York"])).2

/-- An environment whose durable write fails with a fixed message while
the remote stub answers every location. -/
def envWriteFail : Env :=
  { parseDate := fun _ => none, now := 0,
    responses := fun _ => some wNY,
    write := .error "EACCES: permission denied" }

/-- A state with no credential configured. -/
def stNoKey : LWState := { apiKey := none, cache := none, disk := none }

/-- The record the stub remote source returns for the number 10005. -/
def wZip : Weather :=
  { timezone := "America/New_York", ob_time := "OBZ", city_name := "New York",
    datetime := "dt", weather := ⟨"clear sky"⟩ }

/-- A distinct record the stub remote source returns for the string
form of the same zipcode. -/
def wZipS : Weather :=
  { timezone := "America/New_York", ob_time := "OBZ2", city_name := "New York",
    datetime := "dt2", weather := ⟨"light rain"⟩ }

/-- An environment distinguishing the number 10005 from the string form
at the remote source, so that a key collision is observable. -/
def envZip : Env :=
  { parseDate := fun _ => none, now := 0,
    responses := fun l =>
      if l == JsValue.num 10005 then some wZip
      else if l == JsValue.str "10005" then some wZipS else none,
    write := .ok () }

/-- The state left by fetching the number 10005 from the empty state. -/
def stZip : LWState :=
  (getWeatherData envZip stEmpty (JsInput.array [JsValue.num 10005])).2

/-! ## General lemmas about the embedded object operations -/

/-- Lookup through an object spread: the right operand wins on a
collision, the left operand answers otherwise. -/
theorem Cache.lookup_union (a b : Cache) (k : String) :
    (Cache.union a b).lookup k = ((b.lookup k).or (a.lookup k)) := by
  induction a with
  | nil =>
      simp [Cache.union, Cache.lookup, Option.or_none]
  | cons hd tl ih =>
      by_cases hk : hd.1 = k
      · subst hk
        cases hb : Cache.lookup b hd.1 with
        | none =>
            have hpred : (Cache.lookup b hd.1).isNone = true := by simp [hb]
            simp only [Cache.union, List.filter_cons, hpred, if_pos, List.cons_append]
            simp [Cache.lookup, List.find?_cons, hb, Option.or]
        | some w =>
            have hpred : (Cache.lookup b hd.1).isNone = false := by simp [hb]
            simp only [Cache.union, List.filter_cons, hpred]
            simp only [Bool.false_eq_true, if_false]
            have ih' := ih
            simp only [Cache.union] at ih'
            rw [ih', hb]
            simp [Cache.lookup, List.find?_cons, Option.or]
      · have hbeq : (hd.1 == k) = false := by simp [hk]
        cases hpred : (Cache.lookup b hd.1).isNone with
        | true =>
            simp only [Cache.union, List.filter_cons, hpred, if_pos, List.cons_append]
            have ih' := ih
            simp only [Cache.union] at ih'
            simp only [Cache.lookup, List.find?_cons, hbeq] at ih' ⊢
            rw [ih']
        | false =>
            simp only [Cache.union, List.filter_cons, hpred]
            simp only [Bool.false_eq_true, if_false]
            have ih' := ih
            simp only [Cache.union] at ih'
            simp only [Cache.lookup, List.find?_cons, hbeq] at ih' ⊢
            rw [ih']

/-- Lookup through a lodash pick: a key answers its value exactly when
it is among the picked keys and the object holds it. -/
theorem Cache.lookup_pick (c : Cache) (keys : List String) (k : String) :
    (pick c keys).lookup k = if keys.contains k then c.lookup k else none := by
  induction keys with
  | nil => simp [pick, Cache.lookup]
  | cons a rest ih =>
      by_cases hak : a = k
      · subst hak
        cases hc : Cache.lookup c a with
        | none =>
            simp only [pick, List.filterMap_cons, hc, Option.map_none']
            simp only [pick] at ih
            rw [ih]
            simp [hc]
        | some w =>
            simp only [pick, List.filterMap_cons, hc, Option.map_some']
            simp [Cache.lookup, List.find?_cons, hc]
      · have hbeq : (k == a) = false := by simp [Ne.symm hak]
        have hbeq' : (a == k) = false := by simp [hak]
        cases hc : Cache.lookup c a with
        | none =>
            simp only [pick, List.filterMap_cons, hc, Option.map_none']
            simp only [pick] at ih
            rw [ih]
            simp [List.contains_cons, hbeq, Ne.symm hak]
        | some w =>
            simp only [pick, List.filterMap_cons, hc, Option.map_some']
            simp only [pick] at ih
            simp only [Cache.lookup, List.find?_cons, hbeq'] at ih ⊢
            rw [ih]
            simp [List.contains_cons, hbeq, Ne.symm hak]

/-- When the remote source answers every location of a batch, the joined
fetch resolves. -/
theorem axiosAll_ok_of_responses (env : Env) (locs : List JsValue)
    (h : ∀ l ∈ locs, (env.responses l).isSome) :
    ∃ cs, axiosAll env locs = .ok cs := by
  induction locs with
  | nil => exact ⟨[], rfl⟩
  | cons a rest ih =>
      have ha := h a (by simp)
      obtain ⟨w, hw⟩ := Option.isSome_iff_exists.mp ha
      obtain ⟨cs, hcs⟩ := ih (fun l hl => h l (List.mem_cons_of_mem _ hl))
      refine ⟨[(a.toStr, w)] :: cs, ?_⟩
      simp [axiosAll, _request, _transformWeatherData, hw, hcs]

/-- When some location of a batch fails at the remote source, the joined
fetch rejects with the no-weather-data error of a failing location. -/
theorem axiosAll_error_of_failure (env : Env) (locs : List JsValue) (l : JsValue)
    (hl : l ∈ locs) (hf : env.responses l = none) :
    ∃ lf, lf ∈ locs ∧ env.responses lf = none ∧
      axiosAll env locs = .error ⟨.error, "no weather data for " ++ lf.toStr⟩ := by
  induction locs with
  | nil => cases hl
  | cons a rest ih =>
      cases hra : env.responses a with
      | none =>
          exact ⟨a, List.mem_cons_self _ _, hra,
            by simp [axiosAll, _request, _transformWeatherData, hra]⟩
      | some w =>
          have hlr : l ∈ rest := by
            rcases List.mem_cons.mp hl with h | h
            · subst h; rw [hra] at hf; cases hf
            · exact h
          obtain ⟨lf, hlfm, hlfn, heq⟩ := ih hlr
          exact ⟨lf, List.mem_cons_of_mem _ hlfm, hlfn,
            by simp [axiosAll, _request, _transformWeatherData, hra, heq]⟩

/-! ## The claims -/

/-- C1: the claim states that a location is routed to the served-from-cache
set exactly when its cached record exists and its ob_time plus one hour is
later than now, with missing records, unparsable timestamps and older
records routed to the remote-fetch set.  The code inverts this polarity:
_locationCacheExpired returns the freshness comparison itself, so a fresh
record (key F below: parsed observation 1000000 ms, clock 4000000 ms, and
1000000 + 3600000 > 4000000) lands in the remote-fetch (flag true) set,
while a stale record (key S: parsed observation 0 ms) and an unparsable
one (key G) land in the served-from-cache (flag false) set; only a
missing record (key M) is routed as the claim says. -/
theorem c1_cache_expiry_polarity_inverted :
    (envC1.parseDate wFresh.ob_time = some 1000000 ∧ 1000000 + 3600000 > envC1.now) ∧
    (envC1.parseDate wStale.ob_time = some 0 ∧ ¬ (0 + 3600000 > envC1.now)) ∧
    envC1.parseDate wGarbled.ob_time = none ∧
    _filterCachedLocations envC1 stC1 true [JsValue.str "F"] = [JsValue.str "F"] ∧
    _filterCachedLocations envC1 stC1 false [JsValue.str "S", JsValue.str "G"]
      = [JsValue.str "S", JsValue.str "G"] ∧
    _filterCachedLocations envC1 stC1 true [JsValue.str "M"] = [JsValue.str "M"] := by
  decide

/-- C2: the claim states that a second getWeatherData call for the same
location within the one-hour freshness window issues no remote fetch.
With the inverted expiry test of C1, the record the first call stored
(observation parsing to 0 ms) is still fresh one minute later
(0 + 3600000 > 60000), yet the second call routes New York into the
batch handed to the remote fetcher, so a second fetch is issued and the
stub call count reaches 2. -/
theorem c2_second_call_refetches_within_window :
    (getWeatherData envFirst stEmpty (JsInput.array [JsValue.str "New York"])).1
      = .ok [("New York", wNY)] ∧
    stAfterFirst.cache = some [("New York", wNY)] ∧
    (envSecond.parseDate wNY.ob_time = some 0 ∧ 0 + 3600000 > envSecond.now) ∧
    remoteBatch envSecond stAfterFirst (JsInput.array [JsValue.str "New York"])
      = [JsValue.str "New York"] :=
  ⟨rfl, rfl, ⟨rfl, by decide⟩, rfl⟩

/-- C3: on a successful durable write, _writeToCache overwrites the blob
with the union of the previous in-memory cache and the new records (new
records winning on a key collision), sets the in-memory cache to exactly
the newly fetched batch, and returns that batch. -/
theorem c3_mergeAndPersist_writes_union_sets_cache_to_batch
    (env : Env) (st : LWState) (data : Cache)
    (h : env.write = .ok ()) :
    ∃ merged : Cache,
      _writeToCache env st data
        = (.ok data, { apiKey := st.apiKey, cache := some data, disk := some merged }) ∧
      ∀ k, merged.lookup k = ((Cache.lookup data k).or ((st.cache.getD []).lookup k)) := by
  refine ⟨Cache.union (st.cache.getD []) data, ?_, fun k => Cache.lookup_union _ _ k⟩
  simp [_writeToCache, h]

/-- Witness for C3: the general theorem applied at a concrete
environment with a working write, the empty initial state and a
one-record batch. -/
theorem c3_mergeAndPersist_witness :
    ∃ merged : Cache,
      _writeToCache envFirst stEmpty [("X", wNY)]
        = (.ok [("X", wNY)],
           { apiKey := stEmpty.apiKey, cache := some [("X", wNY)], disk := some merged }) ∧
      ∀ k, merged.lookup k
        = ((Cache.lookup [("X", wNY)] k).or ((stEmpty.cache.getD []).lookup k)) :=
  c3_mergeAndPersist_writes_union_sets_cache_to_batch envFirst stEmpty [("X", wNY)] rfl

/-- C4: when the durable write fails, _writeToCache rejects with an error
carrying the write failure message and leaves the state (in particular
the in-memory cache) unchanged, and a getWeatherData call whose batch
reaches the write step fails the same way with the state unchanged. -/
theorem c4_write_failure_propagates_and_preserves_cache
    (env : Env) (st : LWState) (msg : String) (data : Cache)
    (input : JsInput) (locs : List JsValue)
    (hw : env.write = .error msg)
    (hk : jsFalsy st.apiKey = false)
    (hv : _validateLocations input = .ok locs)
    (hne : _filterCachedLocations env st true locs ≠ [])
    (hr : ∀ l ∈ _filterCachedLocations env st true locs, (env.responses l).isSome) :
    _writeToCache env st data = (.error ⟨.error, msg⟩, st) ∧
    getWeatherData env st input = (.error ⟨.error, msg⟩, st) := by
  constructor
  · simp [_writeToCache, hw]
  · obtain ⟨cs, hcs⟩ := axiosAll_ok_of_responses env _ hr
    have hlen : ((_filterCachedLocations env st true locs).length != 0) = true := by
      simp [bne_iff_ne, Ne, List.length_eq_zero]
      exact hne
    simp [getWeatherData, getWeatherDataTry, hk, hv, hlen,
      _getWeatherByLocationsFromApi, hcs, _writeToCache, hw]

/-- Witness for C4 at a concrete failing write: the batch Lagos is
fetched, the write fails, the call fails with the write message and the
state is unchanged. -/
theorem c4_write_failure_witness :
    _writeToCache envWriteFail stC1 [("X", wNY)]
      = (.error ⟨.error, "EACCES: permission denied"⟩, stC1) ∧
    getWeatherData envWriteFail stC1 (JsInput.array [JsValue.str "Lagos"])
      = (.error ⟨.error, "EACCES: permission denied"⟩, stC1) :=
  c4_write_failure_propagates_and_preserves_cache envWriteFail stC1
    "EACCES: permission denied" [("X", wNY)]
    (JsInput.array [JsValue.str "Lagos"]) [JsValue.str "Lagos"]
    rfl rfl rfl (by decide) (by decide)

/-- C5: with the credential absent or empty, getWeatherData fails with
the message please supply a valid api key for every input whatsoever,
array-shaped or not, before any validation, cache or network step, and
leaves the state unchanged. -/
theorem c5_missing_api_key_wins_over_all_inputs
    (env : Env) (st : LWState) (input : JsInput)
    (h : st.apiKey = none ∨ st.apiKey = some "") :
    getWeatherData env st input
      = (.error ⟨.error, "please supply a valid api key"⟩, st) := by
  have hf : jsFalsy st.apiKey = true := by
    rcases h with h | h <;> rw [h] <;> rfl
  simp [getWeatherData, getWeatherDataTry, hf]

/-- Witness for C5 at a non-array input and an absent credential. -/
theorem c5_missing_api_key_witness :
    getWeatherData envFirst stNoKey (JsInput.notArray "string")
      = (.error ⟨.error, "please supply a valid api key"⟩, stNoKey) :=
  c5_missing_api_key_wins_over_all_inputs envFirst stNoKey
    (JsInput.notArray "string") (Or.inl rfl)

/-- C6: if any location of the batch handed to the remote fetcher fails
(its response does not parse into the expected record shape), the whole
getWeatherData call fails with the message no weather data for that
location --- the error names a failing location of the batch, and when
the failing location is unique it names exactly that one --- and no
partial mapping is returned, the state staying unchanged. -/
theorem c6_single_fetch_failure_poisons_whole_call
    (env : Env) (st : LWState) (input : JsInput)
    (locs : List JsValue) (l : JsValue)
    (hk : jsFalsy st.apiKey = false)
    (hv : _validateLocations input = .ok locs)
    (hl : l ∈ _filterCachedLocations env st true locs)
    (hf : env.responses l = none) :
    (∃ lf, lf ∈ _filterCachedLocations env st true locs ∧ env.responses lf = none ∧
      getWeatherData env st input
        = (.error ⟨.error, "no weather data for " ++ lf.toStr⟩, st)) ∧
    ((∀ l2 ∈ _filterCachedLocations env st true locs, env.responses l2 = none → l2 = l) →
      getWeatherData env st input
        = (.error ⟨.error, "no weather data for " ++ l.toStr⟩, st)) := by
  obtain ⟨lf, hlfm, hlfn, heq⟩ := axiosAll_error_of_failure env _ l hl hf
  have hlen : ((_filterCachedLocations env st true locs).length != 0) = true := by
    simp [bne_iff_ne, Ne, List.length_eq_zero]
    exact List.ne_nil_of_mem hl
  have hmain : getWeatherData env st input
      = (.error ⟨.error, "no weather data for " ++ lf.toStr⟩, st) := by
    simp [getWeatherData, getWeatherDataTry, hk, hv, hlen,
      _getWeatherByLocationsFromApi, heq]
  refine ⟨⟨lf, hlfm, hlfn, hmain⟩, fun hu => ?_⟩
  rw [hu lf hlfm hlfn] at hmain
  exact hmain

/-- Witness for C6 at a concrete unresolvable location against the cache
state of stC1. -/
theorem c6_single_fetch_failure_witness :
    (∃ lf, lf ∈ _filterCachedLocations envC1 stC1 true [JsValue.str "kjkkssjkjkj"] ∧
      envC1.responses lf = none ∧
      getWeatherData envC1 stC1 (JsInput.array [JsValue.str "kjkkssjkjkj"])
        = (.error ⟨.error, "no weather data for " ++ lf.toStr⟩, stC1)) ∧
    ((∀ l2 ∈ _filterCachedLocations envC1 stC1 true [JsValue.str "kjkkssjkjkj"],
        envC1.responses l2 = none → l2 = JsValue.str "kjkkssjkjkj") →
      getWeatherData envC1 stC1 (JsInput.array [JsValue.str "kjkkssjkjkj"])
        = (.error ⟨.error,
            "no weather data for " ++ (JsValue.str "kjkkssjkjkj").toStr⟩, stC1)) :=
  c6_single_fetch_failure_poisons_whole_call envC1 stC1
    (JsInput.array [JsValue.str "kjkkssjkjkj"]) [JsValue.str "kjkkssjkjkj"]
    (JsValue.str "kjkkssjkjkj") rfl rfl (by decide) rfl

/-- C7: _validateLocations fails in exactly the four specified ways ---
non-array input with a TypeError naming should be an array, the empty
array with should not be empty, over ten elements with more than 10, a
bad element with a TypeError naming city(string) or zipcode(integer) ---
and on every array of 1 to 10 elements all strings or numbers it returns
the input list itself, untransformed; the function reads neither the
cache state nor the environment. -/
theorem c7_validator_four_failure_cases_and_success
    (tag : String) (locs : List JsValue) :
    (_validateLocations (.notArray tag)
      = .error ⟨.typeError,
          "data set should be an array containing locations and postal codes"⟩) ∧
    (_validateLocations (.array [])
      = .error ⟨.error, "data set should not be empty"⟩) ∧
    (locs.length > 10 → _validateLocations (.array locs)
      = .error ⟨.error, "data set should not contain more than 10 entries"⟩) ∧
    (1 ≤ locs.length → locs.length ≤ 10 → (∃ l ∈ locs, isStringOrNumber l = false) →
      _validateLocations (.array locs)
        = .error ⟨.typeError, "each location should be a city(string) or zipcode(integer)"⟩) ∧
    (1 ≤ locs.length → locs.length ≤ 10 → (∀ l ∈ locs, isStringOrNumber l = true) →
      _validateLocations (.array locs) = .ok locs) := by
  refine ⟨rfl, rfl, ?_, ?_, ?_⟩
  · intro h
    have h0 : (locs.length == 0) = false := by
      rw [beq_eq_false_iff_ne]
      omega
    simp [_validateLocations, h0, h]
  · intro h1 h10 hbad
    have h0 : (locs.length == 0) = false := by rw [beq_eq_false_iff_ne]; omega
    have hgt : ¬ (locs.length > 10) := by omega
    have hall : locs.all isStringOrNumber = false := by
      rw [List.all_eq_false]
      obtain ⟨l, hm, hb⟩ := hbad
      exact ⟨l, hm, by simp [hb]⟩
    simp [_validateLocations, h0, hgt, hall]
  · intro h1 h10 hall
    have h0 : (locs.length == 0) = false := by rw [beq_eq_false_iff_ne]; omega
    have hgt : ¬ (locs.length > 10) := by omega
    have hA : locs.all isStringOrNumber = true := List.all_eq_true.mpr hall
    simp [_validateLocations, h0, hgt, hA]

/-- Witness for C7: the five branches at concrete inputs --- a string
input, the empty array, eleven numbers, a one-element array holding an
array, and the valid mixed batch of the test suite. -/
theorem c7_validator_witness :
    (_validateLocations (.notArray "string")
      = .error ⟨.typeError,
          "data set should be an array containing locations and postal codes"⟩) ∧
    (_validateLocations (.array [])
      = .error ⟨.error, "data set should not be empty"⟩) ∧
    (_validateLocations (.array (List.replicate 11 (JsValue.num 0)))
      = .error ⟨.error, "data set should not contain more than 10 entries"⟩) ∧
    (_validateLocations (.array [JsValue.other "array"])
      = .error ⟨.typeError, "each location should be a city(string) or zipcode(integer)"⟩) ∧
    (_validateLocations (.array [JsValue.str "New York", JsValue.num 10005])
      = .ok [JsValue.str "New York", JsValue.num 10005]) :=
  ⟨(c7_validator_four_failure_cases_and_success "string" []).1,
   (c7_validator_four_failure_cases_and_success "string" []).2.1,
   (c7_validator_four_failure_cases_and_success "string"
      (List.replicate 11 (JsValue.num 0))).2.2.1 (by decide),
   (c7_validator_four_failure_cases_and_success "string"
      [JsValue.other "array"]).2.2.2.1 (by decide) (by decide)
      ⟨JsValue.other "array", by decide, rfl⟩,
   (c7_validator_four_failure_cases_and_success "string"
      [JsValue.str "New York", JsValue.num 10005]).2.2.2.2 (by decide) (by decide)
      (by decide)⟩

/-- C8 counterexample: the claim states that the number 10005 and the
string 10005 are distinct cache keys, caching under one form not making
the record retrievable under the other and the two forms able to stand
as separate entries.  In the code both coerce to the object key 10005:
after getWeatherData caches the number form, the cache projection at the
string form retrieves that very record, and a batch holding both forms
yields a single-entry result. -/
theorem c8_string_number_keys_collide_counterexample :
    stZip.cache = some [("10005", wZip)] ∧
    _getWeatherByLocationsFromCache stZip [JsValue.str "10005"] = [("10005", wZip)] ∧
    (getWeatherData envZip stEmpty
        (JsInput.array [JsValue.num 10005, JsValue.str "10005"])).1
      = .ok [("10005", wZipS)] :=
  ⟨rfl, rfl, rfl⟩

/-- C8 as amended: the number and string forms of the same numeric
location coerce to the same string cache key, so the cache projection
and the transform treat the two forms identically and they can never be
separate entries. -/
theorem c8_amended_same_cache_key (n : Int) (st : LWState) (w : Weather) :
    JsValue.toStr (JsValue.num n) = JsValue.toStr (JsValue.str (toString n)) ∧
    _getWeatherByLocationsFromCache st [JsValue.num n]
      = _getWeatherByLocationsFromCache st [JsValue.str (toString n)] ∧
    _transformWeatherData (JsValue.num n) (some w)
      = _transformWeatherData (JsValue.str (toString n)) (some w) :=
  ⟨rfl, rfl, rfl⟩

/-- C9: the cache projection is total --- defined for every state,
including one whose cache was never populated --- and its result holds
exactly those of the given locations whose key is present in the
in-memory cache, each mapped to its record, absent locations being
omitted. -/
theorem c9_cache_projection_total_and_exact
    (st : LWState) (locations : List JsValue) (k : String) :
    (_getWeatherByLocationsFromCache st locations).lookup k
      = if (locations.map JsValue.toStr).contains k
        then (st.cache.getD []).lookup k else none :=
  Cache.lookup_pick _ _ k

/-- C10: the request classifies a location as a postal code exactly when
its string form holds at least one decimal digit, so the free-text name
New York 10 is requested with postal_code while only entirely digit-free
strings are requested with city. -/
theorem c10_postal_code_iff_contains_digit (location : JsValue) :
    (locationKind location = "postal_code" ↔ ∃ c ∈ location.toStr.data, c.isDigit) ∧
    (locationKind location = "city" ↔ ∀ c ∈ location.toStr.data, ¬ c.isDigit) ∧
    locationKind (JsValue.str "New York 10") = "postal_code" ∧
    requestUrl "KEY" (JsValue.str "New York 10")
      = "https://api.weatherbit.io/v2.0/current?postal_code=New York 10&key=KEY" ∧
    requestUrl "KEY" (JsValue.str "London")
      = "https://api.weatherbit.io/v2.0/current?city=London&key=KEY" ∧
    requestUrl "KEY" (JsValue.num 10005)
      = "https://api.weatherbit.io/v2.0/current?postal_code=10005&key=KEY" := by
  have hdig : ∀ c : Char,
      ((decide ('0' ≤ c) && decide (c ≤ '9')) = true) ↔ c.isDigit = true := by
    intro c
    simp [Char.isDigit, Char.le_def]
  have hiff : testDigitsRegex location.toStr = true
      ↔ ∃ c ∈ location.toStr.data, c.isDigit = true := by
    simp only [testDigitsRegex, List.any_eq_true]
    constructor
    · rintro ⟨c, hc, hd⟩; exact ⟨c, hc, (hdig c).mp hd⟩
    · rintro ⟨c, hc, hd⟩; exact ⟨c, hc, (hdig c).mpr hd⟩
  refine ⟨?_, ?_, by decide, by decide, by decide, by decide⟩
  · constructor
    · intro h
      by_cases ht : testDigitsRegex location.toStr = true
      · exact hiff.mp ht
      · simp [locationKind, ht] at h
    · intro h
      have := hiff.mpr h
      simp [locationKind, this]
  · constructor
    · intro h c hc
      by_cases ht : testDigitsRegex location.toStr = true
      · simp [locationKind, ht] at h
      · intro hd
        exact ht (hiff.mpr ⟨c, hc, hd⟩)
    · intro h
      have ht : testDigitsRegex location.toStr = false := by
        by_contra hcon
        have hx : testDigitsRegex location.toStr = true := by
          cases hy : testDigitsRegex location.toStr
          · exact absurd hy hcon
          · rfl
        obtain ⟨c, hc, hd⟩ := hiff.mp hx
        exact h c hc hd
      simp [locationKind, ht]

end LocationWeather
